import Mathlib

/-!
Shallow embedding of the WhatsApp notification server (wa-server):
the connection lifecycle manager in src/services/whatsappService.js and
the message route handler in src/routes/messageRoutes.js.

Time is modelled as natural-number milliseconds.  JavaScript setTimeout
callbacks are modelled as explicit pending timers carried in the state:
the close branch of handleConnectionUpdate appends a qr-clearing timer
(120000 ms) and possibly a reconnect timer, exactly where the source
calls setTimeout.  fireTimer executes a timer body; runTimersUpTo fires
every timer due by a given instant, in scheduling order.

Socket handles are modelled by numeric identities drawn from a fresh
counter (nextHandle); endedHandles records every handle on which the
source called socket.end().  Every created socket registers the same
connection.update listener on the singleton service, and the source
keeps no per-handle generation tag, so handleConnectionUpdate is a
single transition that does not know which socket emitted the event --
exactly as in the source.
-/

namespace WAServer

/-- Kind of a pending setTimeout callback in whatsappService.js:
qrClear is the 2-minute qr-expiry callback registered on every close
event; reconnect is the deferred this.connect() of the backoff branch. -/
inductive TimerKind where
  | qrClear
  | reconnect
deriving DecidableEq, Repr

/-- A pending setTimeout callback together with its absolute fire time. -/
structure Timer where
  kind : TimerKind
  fireAt : Nat
deriving DecidableEq, Repr

/-- The mutable fields of the WhatsAppService singleton (constructor,
lines 15-25 of whatsappService.js), plus bookkeeping that makes socket
identity and pending timers explicit. -/
structure WAState where
  socket : Option Nat
  qr : Option String
  isConnected : Bool
  connectionAttempts : Nat
  maxReconnectAttempts : Nat
  baseRetryDelay : Nat
  lastConnectionAttempt : Option Nat
  cooldownPeriod : Nat
  nextHandle : Nat
  timers : List Timer
  endedHandles : List Nat
deriving DecidableEq, Repr

/-- Baileys DisconnectReason.loggedOut status code. -/
def loggedOutCode : Nat := 401

/-- The lastDisconnect.error of a connection.update event: whether it is
a Boom error and its output.statusCode. -/
structure DisconnectErr where
  isBoom : Bool
  statusCode : Nat
deriving DecidableEq, Repr

/-- The connection field of a connection.update event. -/
inductive ConnStatus where
  | close
  | open
deriving DecidableEq, Repr

/-- A connection.update event as destructured at line 89 of
whatsappService.js. -/
structure ConnUpdate where
  connection : Option ConnStatus
  lastDisconnect : Option DisconnectErr
  qr : Option String
deriving DecidableEq, Repr

/-- shouldReconnect, lines 107-109: true unless the disconnect error is
a Boom whose statusCode equals DisconnectReason.loggedOut. -/
def shouldReconnect (ld : Option DisconnectErr) : Bool :=
  match ld with
  | some e => if e.isBoom then decide (e.statusCode ≠ loggedOutCode) else true
  | none => true

/-- connect(), lines 49-86: builds a fresh socket via makeWASocket and
assigns it to this.socket.  The source neither ends the previous socket
nor cancels any pending timer here; event-listener registration is
implicit (all sockets feed handleConnectionUpdate). -/
def connect (s : WAState) : WAState :=
  { s with socket := some s.nextHandle, nextHandle := s.nextHandle + 1 }

/-- handleConnectionUpdate, lines 88-156: store a fresh qr if present;
on close, clear isConnected, schedule the 2-minute qr expiry, and either
schedule a linear-backoff reconnect (attempts below the ceiling) or
re-arm the cooldown window (ceiling reached); on open, mark connected,
drop the qr and reset the attempt counter. -/
def handleConnectionUpdate (now : Nat) (u : ConnUpdate) (s : WAState) : WAState :=
  let s1 : WAState :=
    match u.qr with
    | some q => { s with qr := some q }
    | none => s
  let s2 : WAState :=
    if u.connection = some ConnStatus.close then
      let sr := shouldReconnect u.lastDisconnect
      let sc : WAState :=
        { s1 with isConnected := false,
                  timers := s1.timers ++ [⟨TimerKind.qrClear, now + 120000⟩] }
      if sr = true ∧ sc.connectionAttempts < sc.maxReconnectAttempts then
        let attempts := sc.connectionAttempts + 1
        let delay := sc.baseRetryDelay * attempts
        { sc with connectionAttempts := attempts,
                  timers := sc.timers ++ [⟨TimerKind.reconnect, now + delay⟩] }
      else if sc.maxReconnectAttempts ≤ sc.connectionAttempts then
        { sc with lastConnectionAttempt := some now }
      else sc
    else s1
  if u.connection = some ConnStatus.open then
    { s2 with isConnected := true, qr := none, connectionAttempts := 0 }
  else s2

/-- The body of a due setTimeout callback.  The qrClear callback (lines
114-119) nulls the qr only when still not connected; the reconnect
callback (line 141) calls connect(). -/
def fireTimer (t : Timer) (s : WAState) : WAState :=
  match t.kind with
  | TimerKind.qrClear => if s.isConnected then s else { s with qr := none }
  | TimerKind.reconnect => connect s

/-- Fire, in scheduling order, every pending timer due by instant now. -/
def runTimersUpTo (now : Nat) (s : WAState) : WAState :=
  let due := s.timers.filter (fun t => decide (t.fireAt ≤ now))
  let rest := s.timers.filter (fun t => decide (¬ t.fireAt ≤ now))
  due.foldl (fun st t => fireTimer t st) { s with timers := rest }

/-- Outcome of initialize(): either the cooldown refusal (with the
remaining wait in whole seconds, as logged at line 33) or the connect
path. -/
inductive InitOutcome where
  | cooldownActive (waitSeconds : Nat)
  | proceeded
deriving DecidableEq, Repr

/-- initialize(), lines 27-47: inside the cooldown window it returns
without touching any state; otherwise it stamps lastConnectionAttempt
and calls connect(). -/
def initializeConn (now : Nat) (s : WAState) : InitOutcome × WAState :=
  match s.lastConnectionAttempt with
  | some t =>
    if now - t < s.cooldownPeriod then
      (InitOutcome.cooldownActive ((s.cooldownPeriod - (now - t) + 999) / 1000), s)
    else
      (InitOutcome.proceeded, connect { s with lastConnectionAttempt := some now })
  | none => (InitOutcome.proceeded, connect { s with lastConnectionAttempt := some now })

/-- disconnect(), lines 211-219: ends and drops the socket, clears the
connected flag and the qr; a no-op without a socket.  No timer is
cancelled. -/
def disconnect (s : WAState) : WAState :=
  match s.socket with
  | some h =>
    { s with socket := none, isConnected := false, qr := none,
             endedHandles := h :: s.endedHandles }
  | none => s

/-- resetConnection(), lines 221-237: zeroes the counters, clears qr and
the connected flag, then ends and drops the socket if any.  No timer is
cancelled. -/
def resetConnection (s : WAState) : WAState :=
  let s1 : WAState :=
    { s with connectionAttempts := 0, lastConnectionAttempt := none,
             qr := none, isConnected := false }
  match s1.socket with
  | some h => { s1 with socket := none, endedHandles := h :: s1.endedHandles }
  | none => s1

/-- forceConnect(), lines 239-249: resetConnection then connect. -/
def forceConnect (s : WAState) : WAState :=
  connect (resetConnection s)

/-- clearSession(), lines 251-284: disconnect, zero the state, delete
the on-disk session files (outside ConnectionState, elided), then
connect to begin a fresh pairing flow. -/
def clearSession (s : WAState) : WAState :=
  let s1 := disconnect s
  let s2 : WAState :=
    { s1 with connectionAttempts := 0, lastConnectionAttempt := none,
              qr := none, isConnected := false }
  connect s2

/-- The reconnect timers among a timer list: the pending deferred
connect() calls. -/
def reconnectTimers (ts : List Timer) : List Timer :=
  ts.filter (fun t => decide (t.kind = TimerKind.reconnect))

/-- Fold a list of close events (timestamp and disconnect error) through
handleConnectionUpdate. -/
def processCloseEvents (evts : List (Nat × Option DisconnectErr)) (s : WAState) : WAState :=
  evts.foldl (fun st e => handleConnectionUpdate e.1 ⟨some ConnStatus.close, e.2, none⟩ st) s

/-- Keep only the digit characters of a string: the JavaScript
replace of non-digits by the empty string at lines 26 and 165. -/
def digitsOnly (p : String) : String :=
  ⟨p.data.filter Char.isDigit⟩

/-- The phone regex of messageRoutes.js line 25: an optional leading
plus sign, then a nonzero digit, then 1 to 14 further digits. -/
def matchesPhone (t : String) : Bool :=
  let cs := match t.data with
    | '+' :: rest => rest
    | cs => cs
  match cs with
  | [] => false
  | c :: rest =>
    decide ('1' ≤ c) && decide (c ≤ '9') && rest.all Char.isDigit &&
      decide (1 ≤ rest.length) && decide (rest.length ≤ 14)

/-- Outcome of the POST /message handler. -/
inductive RouteOutcome where
  | missingFields
  | invalidPhone
  | notConnected
  | sent (dest : String)
deriving DecidableEq, Repr

/-- An invocation of socket.sendMessage: the formatted address and the
message body. -/
structure SendCall where
  dest : String
  text : String
deriving DecidableEq, Repr

/-- The POST /message handler (messageRoutes.js lines 12-68) composed
with sendMessage (whatsappService.js lines 158-187): reject missing
fields, reject when the digits-only projection fails the phone regex,
reject when not connected, otherwise invoke the transport at
digitsOnly(phoneNumber) followed by the suffix at line 165.  The second
component records the transport invocation, if any. -/
def postMessage (s : WAState) (phoneNumber message : String) : RouteOutcome × Option SendCall :=
  if phoneNumber = "" ∨ message = "" then
    (RouteOutcome.missingFields, none)
  else if ¬ matchesPhone (digitsOnly phoneNumber) = true then
    (RouteOutcome.invalidPhone, none)
  else if ¬ s.isConnected = true then
    (RouteOutcome.notConnected, none)
  else
    let formatted := digitsOnly phoneNumber ++ "@s.whatsapp.net"
    (RouteOutcome.sent formatted, some ⟨formatted, message⟩)

/-- A concrete service state used by witnesses and counterexamples:
defaults of the constructor (maxReconnectAttempts 2, baseRetryDelay
60000 ms, cooldownPeriod 300000 ms) with one live socket handle 0. -/
def sampleLive : WAState :=
  { socket := some 0, qr := none, isConnected := false,
    connectionAttempts := 0, maxReconnectAttempts := 2,
    baseRetryDelay := 60000, lastConnectionAttempt := none,
    cooldownPeriod := 300000, nextHandle := 1, timers := [],
    endedHandles := [] }

/-- A concrete connected service state: sampleLive after the new socket
reported opened. -/
def sampleOpen : WAState :=
  { sampleLive with isConnected := true }

/-!  Theorems settling the claims.  -/

/-- Claim C1, counterexample: connect() invoked on a state whose socket
handle 0 is still installed replaces it with fresh handle 1 while never
calling end() on handle 0, so the previous handle is not torn down
before the new transport starts. -/
theorem c1_counterexample :
    sampleLive.socket = some 0 ∧
    (connect sampleLive).socket = some 1 ∧
    0 ∉ (connect sampleLive).endedHandles := by
  decide

/-- Claim C1 (amended): connect() installs a fresh transport handle
wholesale without tearing the previous one down: it never calls end()
on any handle (endedHandles is unchanged) and does not clear the
connected flag, so a live previous handle simply stays live alongside
the new one. -/
theorem c1_connect_no_teardown (s : WAState) :
    (connect s).endedHandles = s.endedHandles ∧
    (connect s).socket = some s.nextHandle ∧
    (connect s).isConnected = s.isConnected := by
  exact ⟨rfl, rfl, rfl⟩

/-- Claim C3, counterexample: with a backoff timer pending, both
resetConnection() and disconnect() leave the timer in place, and the
deferred connect() still fires afterwards (the socket dropped by the
reset is replaced by a fresh one when the timer runs). -/
theorem c3_counterexample :
    (let s : WAState := { sampleLive with timers := [⟨TimerKind.reconnect, 60000⟩] }
     reconnectTimers (resetConnection s).timers = [⟨TimerKind.reconnect, 60000⟩] ∧
     reconnectTimers (disconnect s).timers = [⟨TimerKind.reconnect, 60000⟩] ∧
     (resetConnection s).socket = none ∧
     (runTimersUpTo 60000 (resetConnection s)).socket = some 1) := by
  decide

/-- Claim C3 (amended): neither resetConnection() nor disconnect()
cancels any pending timer: the timer list is untouched, so a scheduled
deferred connect() still fires after an explicit reset or disconnect. -/
theorem c3_no_timer_cancellation (s : WAState) :
    (resetConnection s).timers = s.timers ∧
    (disconnect s).timers = s.timers := by
  cases h : s.socket <;> simp [resetConnection, disconnect, h]

/-- Claim C4: below the ceiling, a non-auth-failure closed event
increments connectionAttempts by exactly 1 and schedules exactly one
deferred connect(), at delay baseRetryDelay multiplied by the successor
of the pre-event attempt count. -/
theorem c4_backoff_schedules_one_reconnect (s : WAState) (now : Nat)
    (ld : Option DisconnectErr)
    (hsr : shouldReconnect ld = true)
    (h : s.connectionAttempts < s.maxReconnectAttempts) :
    (handleConnectionUpdate now ⟨some ConnStatus.close, ld, none⟩ s).connectionAttempts
        = s.connectionAttempts + 1 ∧
    reconnectTimers (handleConnectionUpdate now ⟨some ConnStatus.close, ld, none⟩ s).timers
        = reconnectTimers s.timers ++
            [⟨TimerKind.reconnect, now + s.baseRetryDelay * (s.connectionAttempts + 1)⟩] := by
  simp [handleConnectionUpdate, hsr, h, reconnectTimers, List.filter_append]

/-- Claim C4 witness: the theorem at the default live state, timestamp
0, attempt count 0: one reconnect timer at 60000 ms. -/
theorem c4_witness :
    shouldReconnect none = true ∧
    sampleLive.connectionAttempts < sampleLive.maxReconnectAttempts ∧
    ((handleConnectionUpdate 0 ⟨some ConnStatus.close, none, none⟩ sampleLive).connectionAttempts
        = sampleLive.connectionAttempts + 1 ∧
     reconnectTimers (handleConnectionUpdate 0 ⟨some ConnStatus.close, none, none⟩ sampleLive).timers
        = reconnectTimers sampleLive.timers ++
            [⟨TimerKind.reconnect, 0 + sampleLive.baseRetryDelay * (sampleLive.connectionAttempts + 1)⟩]) :=
  ⟨by decide, by decide,
    c4_backoff_schedules_one_reconnect sampleLive 0 none (by decide) (by decide)⟩

/-- A closed event processed at the attempt ceiling: no reconnect timer
is appended, the attempt counter and ceiling are unchanged, and the
cooldown window is re-armed. -/
theorem closeEvent_at_ceiling (s : WAState) (now : Nat) (ld : Option DisconnectErr)
    (h : s.maxReconnectAttempts ≤ s.connectionAttempts) :
    reconnectTimers (handleConnectionUpdate now ⟨some ConnStatus.close, ld, none⟩ s).timers
        = reconnectTimers s.timers ∧
    (handleConnectionUpdate now ⟨some ConnStatus.close, ld, none⟩ s).connectionAttempts
        = s.connectionAttempts ∧
    (handleConnectionUpdate now ⟨some ConnStatus.close, ld, none⟩ s).maxReconnectAttempts
        = s.maxReconnectAttempts ∧
    (handleConnectionUpdate now ⟨some ConnStatus.close, ld, none⟩ s).lastConnectionAttempt
        = some now := by
  have hnot : ¬ (shouldReconnect ld = true ∧ s.connectionAttempts < s.maxReconnectAttempts) := by
    rintro ⟨-, hlt⟩
    omega
  simp [handleConnectionUpdate, hnot, h, reconnectTimers, List.filter_append]

/-- Any sequence of further closed events processed at or above the
attempt ceiling appends no reconnect timer. -/
theorem processCloseEvents_at_ceiling (evts : List (Nat × Option DisconnectErr))
    (s : WAState) (h : s.maxReconnectAttempts ≤ s.connectionAttempts) :
    reconnectTimers (processCloseEvents evts s).timers = reconnectTimers s.timers := by
  induction evts generalizing s with
  | nil => rfl
  | cons e rest ih =>
    have h1 := closeEvent_at_ceiling s e.1 e.2 h
    have h2 : (handleConnectionUpdate e.1 ⟨some ConnStatus.close, e.2, none⟩ s).maxReconnectAttempts
        ≤ (handleConnectionUpdate e.1 ⟨some ConnStatus.close, e.2, none⟩ s).connectionAttempts := by
      rw [h1.2.1, h1.2.2.1]
      exact h
    calc reconnectTimers (processCloseEvents (e :: rest) s).timers
        = reconnectTimers
            (processCloseEvents rest
              (handleConnectionUpdate e.1 ⟨some ConnStatus.close, e.2, none⟩ s)).timers := rfl
      _ = reconnectTimers
            (handleConnectionUpdate e.1 ⟨some ConnStatus.close, e.2, none⟩ s).timers := ih _ h2
      _ = reconnectTimers s.timers := h1.1

/-- Claim C5: at the attempt ceiling, a further closed event schedules
no reconnection and re-arms the cooldown window by stamping
lastConnectionAttempt with the current time; moreover any sequence of
further closed events still schedules no reconnection, so no automatic
attempt arises until an explicit initialize or force-connect call. -/
theorem c5_ceiling_no_reconnect (s : WAState) (now : Nat) (ld : Option DisconnectErr)
    (h : s.maxReconnectAttempts ≤ s.connectionAttempts) :
    reconnectTimers (handleConnectionUpdate now ⟨some ConnStatus.close, ld, none⟩ s).timers
        = reconnectTimers s.timers ∧
    (handleConnectionUpdate now ⟨some ConnStatus.close, ld, none⟩ s).lastConnectionAttempt
        = some now ∧
    ∀ evts : List (Nat × Option DisconnectErr),
      reconnectTimers
          (processCloseEvents evts
            (handleConnectionUpdate now ⟨some ConnStatus.close, ld, none⟩ s)).timers
        = reconnectTimers (handleConnectionUpdate now ⟨some ConnStatus.close, ld, none⟩ s).timers := by
  have h1 := closeEvent_at_ceiling s now ld h
  refine ⟨h1.1, h1.2.2.2, ?_⟩
  intro evts
  apply processCloseEvents_at_ceiling
  rw [h1.2.1, h1.2.2.1]
  exact h

/-- Claim C5 witness: the theorem at a state whose attempt count has
reached the ceiling of 2, with two further closed events afterwards. -/
theorem c5_witness :
    (let s : WAState := { sampleLive with connectionAttempts := 2 }
     s.maxReconnectAttempts ≤ s.connectionAttempts ∧
     (reconnectTimers (handleConnectionUpdate 7000 ⟨some ConnStatus.close, none, none⟩ s).timers
        = reconnectTimers s.timers ∧
      (handleConnectionUpdate 7000 ⟨some ConnStatus.close, none, none⟩ s).lastConnectionAttempt
        = some 7000 ∧
      ∀ evts : List (Nat × Option DisconnectErr),
        reconnectTimers
            (processCloseEvents evts
              (handleConnectionUpdate 7000 ⟨some ConnStatus.close, none, none⟩ s)).timers
          = reconnectTimers (handleConnectionUpdate 7000 ⟨some ConnStatus.close, none, none⟩ s).timers)) :=
  ⟨by decide, c5_ceiling_no_reconnect { sampleLive with connectionAttempts := 2 } 7000 none (by decide)⟩

/-- Claim C6: initialize() inside the cooldown window returns the
cooldown refusal carrying the remaining wait in whole seconds and the
state completely unchanged: no transport is created and
lastConnectionAttempt is not updated. -/
theorem c6_cooldown_refusal (s : WAState) (now t : Nat)
    (hset : s.lastConnectionAttempt = some t)
    (hlt : now - t < s.cooldownPeriod) :
    initializeConn now s =
      (InitOutcome.cooldownActive ((s.cooldownPeriod - (now - t) + 999) / 1000), s) := by
  simp [initializeConn, hset, hlt]

/-- Claim C6 witness: initialize() at time 2000 with the last attempt
stamped at time 1000 and a 300000 ms cooldown refuses with 299 seconds
remaining and leaves the state untouched. -/
theorem c6_witness :
    (let s : WAState := { sampleLive with lastConnectionAttempt := some 1000 }
     s.lastConnectionAttempt = some 1000 ∧
     2000 - 1000 < s.cooldownPeriod ∧
     initializeConn 2000 s =
       (InitOutcome.cooldownActive ((s.cooldownPeriod - (2000 - 1000) + 999) / 1000), s) ∧
     (s.cooldownPeriod - (2000 - 1000) + 999) / 1000 = 299) :=
  ⟨by decide, by decide,
    c6_cooldown_refusal { sampleLive with lastConnectionAttempt := some 1000 } 2000 1000
      (by decide) (by decide), by decide⟩

/-- Claim C7: a closed event whose error is a Boom with the loggedOut
status code (auth failure) never schedules a reconnect timer and never
creates a transport, whatever the current attempt count; the explicit
operator paths forceConnect() and clearSession() are the ones that
start a fresh transport. -/
theorem c7_auth_failure_no_reconnect (s : WAState) (now : Nat) :
    reconnectTimers
        (handleConnectionUpdate now
          ⟨some ConnStatus.close, some ⟨true, loggedOutCode⟩, none⟩ s).timers
      = reconnectTimers s.timers ∧
    (handleConnectionUpdate now
        ⟨some ConnStatus.close, some ⟨true, loggedOutCode⟩, none⟩ s).nextHandle
      = s.nextHandle ∧
    (handleConnectionUpdate now
        ⟨some ConnStatus.close, some ⟨true, loggedOutCode⟩, none⟩ s).connectionAttempts
      = s.connectionAttempts ∧
    (forceConnect s).socket = some (forceConnect s).nextHandle.pred ∧
    (clearSession s).socket = some (clearSession s).nextHandle.pred := by
  have hsr : shouldReconnect (some ⟨true, loggedOutCode⟩) = false := by decide
  refine ⟨?_, ?_, ?_, ?_, ?_⟩ <;>
    simp [handleConnectionUpdate, hsr, reconnectTimers, List.filter_append,
      forceConnect, clearSession, connect, resetConnection, disconnect] <;>
    split <;> simp [reconnectTimers, List.filter_append]

/-- Claim C2, counterexample: handle 0 is live, connect() supersedes it
with handle 1, handle 1 reports opened; a first late closed event (the
source cannot tell it came from stale handle 0) flips connected to
false and bumps attemptCount to 1, and a second one bumps it to 2 —
the state is mutated, not left unchanged. -/
theorem c2_counterexample :
    (let sOpen := handleConnectionUpdate 500 ⟨some ConnStatus.open, none, none⟩
        (connect sampleLive)
     let s1 := handleConnectionUpdate 1000 ⟨some ConnStatus.close, none, none⟩ sOpen
     let s2 := handleConnectionUpdate 2000 ⟨some ConnStatus.close, none, none⟩ s1
     sOpen.isConnected = true ∧ sOpen.connectionAttempts = 0 ∧
     s1.isConnected = false ∧ s1.connectionAttempts = 1 ∧
     s2.connectionAttempts = 2) := by
  decide

/-- Claim C2 (amended): there is no stale-generation guard: every
created socket feeds the same handleConnectionUpdate and no handle
carries a generation tag, so a closed event arriving after a newer
handle reported opened is processed like any other closed event — it
sets connected to false and, while the ceiling is not reached,
increments attemptCount and schedules a reconnect. -/
theorem c2_stale_close_mutates (s : WAState) (tOpen tClose : Nat)
    (h : 0 < s.maxReconnectAttempts) :
    (handleConnectionUpdate tOpen ⟨some ConnStatus.open, none, none⟩ s).isConnected = true ∧
    (handleConnectionUpdate tClose ⟨some ConnStatus.close, none, none⟩
        (handleConnectionUpdate tOpen ⟨some ConnStatus.open, none, none⟩ s)).isConnected
      = false ∧
    (handleConnectionUpdate tClose ⟨some ConnStatus.close, none, none⟩
        (handleConnectionUpdate tOpen ⟨some ConnStatus.open, none, none⟩ s)).connectionAttempts
      = 1 := by
  simp [handleConnectionUpdate, shouldReconnect, h]

/-- Claim C2 witness: the theorem at the default live state with the
open at 500 ms and the stale close at 1000 ms. -/
theorem c2_witness :
    0 < sampleLive.maxReconnectAttempts ∧
    ((handleConnectionUpdate 500 ⟨some ConnStatus.open, none, none⟩ sampleLive).isConnected
        = true ∧
     (handleConnectionUpdate 1000 ⟨some ConnStatus.close, none, none⟩
        (handleConnectionUpdate 500 ⟨some ConnStatus.open, none, none⟩ sampleLive)).isConnected
        = false ∧
     (handleConnectionUpdate 1000 ⟨some ConnStatus.close, none, none⟩
        (handleConnectionUpdate 500 ⟨some ConnStatus.open, none, none⟩ sampleLive)).connectionAttempts
        = 1) :=
  ⟨by decide, c2_stale_close_mutates sampleLive 500 1000 (by decide)⟩

/-- Claim C9, counterexample: destination "a1b2c3d4e5" does not match
the international-number shape, yet with a connected service the
handler accepts it and invokes the transport (only its digits are
tested), so an input failing the shape validation does not yield a
validation error. -/
theorem c9_counterexample :
    matchesPhone "a1b2c3d4e5" = false ∧
    (postMessage sampleOpen "a1b2c3d4e5" "hi").1
      = RouteOutcome.sent "12345@s.whatsapp.net" ∧
    (postMessage sampleOpen "a1b2c3d4e5" "hi").2
      = some ⟨"12345@s.whatsapp.net", "hi"⟩ := by
  decide

/-- Claim C9 (amended): the handler validates the digits-only
projection of the destination against the phone shape, and the body and
destination for non-emptiness, before touching the transport: any input
failing one of those checks gets a 400 caller-error outcome and the
transport send is never invoked, regardless of connection state; the
destination "abc" fails them (its digit projection is empty). -/
theorem c9_validation_before_transport (s : WAState) (phoneNumber message : String)
    (h : matchesPhone (digitsOnly phoneNumber) = false ∨ phoneNumber = "" ∨ message = "") :
    (postMessage s phoneNumber message).2 = none ∧
    ((postMessage s phoneNumber message).1 = RouteOutcome.missingFields ∨
     (postMessage s phoneNumber message).1 = RouteOutcome.invalidPhone) := by
  by_cases h1 : phoneNumber = "" ∨ message = ""
  · simp [postMessage, h1]
  · have h2 : matchesPhone (digitsOnly phoneNumber) = false := by
      rcases h with h | h | h
      · exact h
      · exact absurd (Or.inl h) h1
      · exact absurd (Or.inr h) h1
    simp [postMessage, h1, h2]

/-- Claim C9 witness: destination "abc" with a non-empty body is
rejected as an invalid phone number and the transport is never
invoked, on the connected sample state. -/
theorem c9_witness :
    (matchesPhone (digitsOnly "abc") = false ∨ "abc" = "" ∨ "hello" = "") ∧
    ((postMessage sampleOpen "abc" "hello").2 = none ∧
     ((postMessage sampleOpen "abc" "hello").1 = RouteOutcome.missingFields ∨
      (postMessage sampleOpen "abc" "hello").1 = RouteOutcome.invalidPhone)) :=
  ⟨by decide, c9_validation_before_transport sampleOpen "abc" "hello" (by decide)⟩

/-- Whenever the transport is invoked, the message is addressed to the
digit projection of the destination followed by the network suffix. -/
theorem postMessage_dest (s : WAState) (d m : String) (c : SendCall)
    (h : (postMessage s d m).2 = some c) :
    c.dest = digitsOnly d ++ "@s.whatsapp.net" := by
  unfold postMessage at h
  split at h
  · exact absurd h (by simp)
  · split at h
    · exact absurd h (by simp)
    · split at h
      · exact absurd h (by simp)
      · simp only [Option.some.injEq] at h
        rw [← h]

/-- A string whose digit projection is non-empty is itself non-empty. -/
theorem digitsOnly_ne_empty (d : String) (h : digitsOnly d ≠ "") : d ≠ "" := by
  intro hd
  apply h
  rw [hd]
  rfl

/-- The empty digit string fails the phone shape. -/
theorem matchesPhone_empty : matchesPhone "" = false := by
  decide

/-- Claim C10: the dispatcher depends on the destination only through
its digit characters: the letter-laden destination "a1b2c3d4e5" passes
validation; two destinations with equal digit projections are both
accepted or both rejected and, when accepted, are addressed
identically; and every accepted destination is addressed to its digit
projection followed by the network suffix. -/
theorem c10_digits_only_dispatch :
    matchesPhone (digitsOnly "a1b2c3d4e5") = true ∧
    (∀ (s : WAState) (d1 d2 m : String), digitsOnly d1 = digitsOnly d2 →
      (((postMessage s d1 m).2).isSome = ((postMessage s d2 m).2).isSome ∧
       ∀ c1 c2, (postMessage s d1 m).2 = some c1 → (postMessage s d2 m).2 = some c2 →
         c1.dest = c2.dest)) ∧
    (∀ (s : WAState) (d m : String) (c : SendCall),
      (postMessage s d m).2 = some c → c.dest = digitsOnly d ++ "@s.whatsapp.net") := by
  refine ⟨by decide, ?_, postMessage_dest⟩
  intro s d1 d2 m hd
  constructor
  · by_cases hm : m = ""
    · simp [postMessage, hm]
    · by_cases h1 : d1 = "" <;> by_cases h2 : d2 = ""
      · simp [postMessage, h1, h2, hm]
      · have hz : digitsOnly d2 = "" := by
          rw [← hd, h1]
          rfl
        simp [postMessage, h1, h2, hm, hz, matchesPhone_empty]
      · have hz : digitsOnly d1 = "" := by
          rw [hd, h2]
          rfl
        simp [postMessage, h1, h2, hm, hz, matchesPhone_empty]
      · simp [postMessage, h1, h2, hm, hd]
  · intro c1 c2 hc1 hc2
    rw [postMessage_dest s d1 m c1 hc1, postMessage_dest s d2 m c2 hc2, hd]

/-- Claim C10 witness: the destinations "+1-234-567-890" and
"1234567890" share the digit projection "1234567890": on the connected
sample state both are accepted and both are addressed to
1234567890@s.whatsapp.net. -/
theorem c10_witness :
    matchesPhone (digitsOnly "a1b2c3d4e5") = true ∧
    digitsOnly "+1-234-567-890" = digitsOnly "1234567890" ∧
    ((postMessage sampleOpen "+1-234-567-890" "hi").2).isSome
      = ((postMessage sampleOpen "1234567890" "hi").2).isSome ∧
    (postMessage sampleOpen "+1-234-567-890" "hi").2
      = some ⟨"1234567890@s.whatsapp.net", "hi"⟩ ∧
    "1234567890@s.whatsapp.net" = digitsOnly "+1-234-567-890" ++ "@s.whatsapp.net" :=
  ⟨c10_digits_only_dispatch.1, by decide,
    (c10_digits_only_dispatch.2.1 sampleOpen "+1-234-567-890" "1234567890" "hi" (by decide)).1,
    by decide,
    c10_digits_only_dispatch.2.2 sampleOpen "+1-234-567-890" "hi"
      ⟨"1234567890@s.whatsapp.net", "hi"⟩ (by decide)⟩

/-- Claim C8: with a pairing artifact present and no older timers, a
closed event at time T schedules (rather than executes inline) the
2-minute expiry: running every due timer at T + 119000 ms still leaves
the artifact retrievable, running them at T + 121000 ms leaves it
absent, and a qr-expiry callback firing on a state that reported opened
in the meantime changes nothing. -/
theorem c8_grace_window (s : WAState) (T : Nat) (code : String) (ld : Option DisconnectErr)
    (hqr : s.qr = some code) (ht : s.timers = []) :
    (runTimersUpTo (T + 119000)
        (handleConnectionUpdate T ⟨some ConnStatus.close, ld, none⟩ s)).qr = some code ∧
    (runTimersUpTo (T + 121000)
        (handleConnectionUpdate T ⟨some ConnStatus.close, ld, none⟩ s)).qr = none ∧
    (∀ (s2 : WAState) (t : Nat), s2.isConnected = true →
      fireTimer ⟨TimerKind.qrClear, t⟩ s2 = s2) := by
  have h3 : ∀ (s2 : WAState) (t : Nat), s2.isConnected = true →
      fireTimer ⟨TimerKind.qrClear, t⟩ s2 = s2 := by
    intro s2 t h
    simp [fireTimer, h]
  have h119 : ¬ (T + 120000 ≤ T + 119000) := by omega
  have h121 : T + 120000 ≤ T + 121000 := by omega
  refine ⟨?_, ?_, h3⟩
  · by_cases hc : shouldReconnect ld = true ∧ s.connectionAttempts < s.maxReconnectAttempts
    · by_cases h2 : T + s.baseRetryDelay * (s.connectionAttempts + 1) ≤ T + 119000 <;>
        simp [handleConnectionUpdate, hc, ht, runTimersUpTo, List.filter, h119, h2,
          List.foldl_cons, List.foldl_nil, fireTimer, connect, hqr]
    · by_cases hm : s.maxReconnectAttempts ≤ s.connectionAttempts <;>
        simp [handleConnectionUpdate, hc, hm, ht, runTimersUpTo, List.filter, h119,
          List.foldl_cons, List.foldl_nil, fireTimer, connect, hqr]
  · by_cases hc : shouldReconnect ld = true ∧ s.connectionAttempts < s.maxReconnectAttempts
    · by_cases h2 : T + s.baseRetryDelay * (s.connectionAttempts + 1) ≤ T + 121000 <;>
        simp [handleConnectionUpdate, hc, ht, runTimersUpTo, List.filter, h121, h2,
          List.foldl_cons, List.foldl_nil, fireTimer, connect]
    · by_cases hm : s.maxReconnectAttempts ≤ s.connectionAttempts <;>
        simp [handleConnectionUpdate, hc, hm, ht, runTimersUpTo, List.filter, h121,
          List.foldl_cons, List.foldl_nil, fireTimer, connect]

/-- Claim C8 witness: a live state holding artifact "qr-token", closed
at T = 1000 ms: the artifact survives the timers due by 120000 ms into
the window and is gone once the 2-minute timer is due, while a
qr-expiry callback on an opened state is a no-op. -/
theorem c8_witness :
    (let s : WAState := { sampleLive with qr := some "qr-token" }
     s.qr = some "qr-token" ∧ s.timers = [] ∧
     ((runTimersUpTo (1000 + 119000)
         (handleConnectionUpdate 1000 ⟨some ConnStatus.close, none, none⟩ s)).qr
        = some "qr-token" ∧
      (runTimersUpTo (1000 + 121000)
         (handleConnectionUpdate 1000 ⟨some ConnStatus.close, none, none⟩ s)).qr
        = none ∧
      (∀ (s2 : WAState) (t : Nat), s2.isConnected = true →
        fireTimer ⟨TimerKind.qrClear, t⟩ s2 = s2))) :=
  ⟨rfl, rfl,
    c8_grace_window { sampleLive with qr := some "qr-token" } 1000 "qr-token" none rfl rfl⟩

end WAServer
